import Mathlib

/-!
Shallow embedding of `cognee/core.py` (class `CogneeCore`), the orchestrator
lifecycle and background-supervision engine of the HelixCode/cognee repository.

Modelling conventions:
* Python timestamps (`time.time()`) are naturals (seconds); no float arithmetic
  in the embedded fragment depends on real-number structure.
* Collaborator subsystems (graph store, processor, embedding manager, search,
  cache backend, metrics collector, health checker, API, server) are external
  per the spec; their calls are modelled by outcome oracles passed as
  parameters, and the trace of calls the orchestrator issues is returned
  explicitly so that "no side effects" / "re-attempts the whole sequence"
  claims are about observable call traces.
* Exceptions are modelled with `Except` / explicit outcome flags; a Python
  `try/except` that swallows the error becomes a total function recording the
  caught outcome.
-/

namespace Cognee

/-- The `CogneeMetrics` dataclass of `core.py` (lines 28-55): counters and gauges,
all zero-initialised.  Float-valued gauges are modelled as naturals since the
orchestrator only stores collaborator-reported values into them. -/
structure CogneeMetrics where
  total_nodes : Nat := 0
  total_edges : Nat := 0
  graph_complexity : Nat := 0
  processed_documents : Nat := 0
  processing_time : Nat := 0
  embeddings_generated : Nat := 0
  search_queries : Nat := 0
  average_response_time : Nat := 0
  cache_hit_rate : Nat := 0
  memory_usage : Nat := 0
  cpu_usage : Nat := 0
  gpu_usage : Nat := 0
  provider_connections : Nat := 0
  model_integrations : Nat := 0
  api_requests : Nat := 0
  deriving Repr, DecidableEq

/-- The mutable runtime state of a `CogneeCore` instance (constructor,
lines 92-98): `_initialized`, `_running`, `_metrics`, `_background_tasks`.
`start_time` models the `_start_time` attribute read by `get_status`
(line 499); the constructor never creates it, and no method ever assigns it,
so it is `none` at construction and stays `none` (`get_status` guards the read
with `hasattr`). -/
structure CogneeState where
  initialized : Bool
  running : Bool
  metrics : CogneeMetrics
  background_tasks : List String
  start_time : Option Nat
  deriving Repr, DecidableEq

/-- State right after `CogneeCore.__init__` (lines 92-98): flags false, zeroed
metrics, empty task set, `_start_time` attribute absent. -/
def initialState : CogneeState :=
  { initialized := false, running := false, metrics := {},
    background_tasks := [], start_time := none }

/-- The fixed order in which `initialize()` awaits the subsystem
collaborators' `initialize()` methods (lines 116-130). -/
def initOrder : List String :=
  ["knowledge_graph", "data_processor", "embedding_manager", "search_engine",
   "orchestrator", "performance_optimizer", "cache_manager",
   "metrics_collector", "health_checker", "api", "server"]

/-- Names of the three `asyncio.create_task` background tasks started by
`_start_background_tasks` (lines 160-183). -/
def backgroundTaskNames : List String :=
  ["metrics_collection", "health_monitoring", "performance_optimization"]

/-- Model of `_start_background_tasks` (lines 160-183): creates the three tasks and
adds their handles to `self._background_tasks`.  Note it runs *inside*
`initialize()`, before `_running` is ever set to true. -/
def startBackgroundTasks (s : CogneeState) : CogneeState :=
  { s with background_tasks := s.background_tasks ++ backgroundTaskNames }

/-- Runs the subsystem `initialize()` awaits of `initialize()` in order,
stopping at the first one that raises (`ok n = false`).  Returns the list of
collaborator init calls actually issued and whether all succeeded: the
`try` block of `initialize()` aborts at the first exception. -/
def runInits (ok : String → Bool) : List String → List String × Bool
  | [] => ([], true)
  | n :: ns =>
    if ok n then
      let r := runInits ok ns
      (n :: r.1, r.2)
    else ([n], false)

/-- Observable outcome of one `initialize()` call: the returned boolean, the
post state, the subsystem init calls issued, the background tasks created,
and whether `_apply_host_optimization` was entered. -/
structure InitResult where
  ok : Bool
  state : CogneeState
  calls : List String
  tasksStarted : List String
  hostOptApplied : Bool
  deriving Repr, DecidableEq

/-- Model of `initialize()` (lines 102-143), named `initCore` here because the Python
method's name is a reserved word in Lean.  If `_initialized` is already true it
returns `True` at once (line 104-105) issuing no collaborator call.
Otherwise: host optimization runs when `config.dynamic_config` is set (its
internal `try/except` makes any failure non-fatal, lines 145-158); the eleven
subsystem inits run in `initOrder`; any exception aborts the `try` block and
`initialize` returns `False` with `_initialized` still false (lines 141-143);
on success the three background tasks are created, `_initialized` is set and
`True` is returned.  `initialize` stores `time.time()` only in the *local*
`start_time` variable (line 109), never in `self._start_time`, so
`state.start_time` is unchanged. -/
def initCore (ok : String → Bool) (dynamicConfig : Bool)
    (s : CogneeState) : InitResult :=
  if s.initialized then
    { ok := true, state := s, calls := [], tasksStarted := [],
      hostOptApplied := false }
  else
    let r := runInits ok initOrder
    if r.2 then
      { ok := true,
        state := { startBackgroundTasks s with initialized := true },
        calls := r.1, tasksStarted := backgroundTaskNames,
        hostOptApplied := dynamicConfig }
    else
      { ok := false, state := s, calls := r.1, tasksStarted := [],
        hostOptApplied := dynamicConfig }

/-- Errors `start_api` can surface. -/
inductive ApiError where
  | notInitialized
  | serverError
  deriving Repr, DecidableEq

/-- Model of `start_api` (lines 445-462): raises `RuntimeError` when not initialized;
otherwise sets `_running = True`, then awaits `server.start`; if that raises,
`_running` is reset to `False` and the exception is re-raised.
`serverStartOk` is the outcome oracle for the transport collaborator. -/
def start_api (serverStartOk : Bool) (s : CogneeState) :
    Except ApiError Unit × CogneeState :=
  if !s.initialized then (Except.error ApiError.notInitialized, s)
  else
    let s1 := { s with running := true }
    if serverStartOk then (Except.ok (), s1)
    else (Except.error ApiError.serverError, { s1 with running := false })

/-- Observable outcome of `stop_api`: the post state, which task handles were
cancelled and awaited, and whether `server.stop` was called. -/
structure StopResult where
  state : CogneeState
  cancelled : List String
  serverStopCalled : Bool
  deriving Repr, DecidableEq

/-- Model of `stop_api` (lines 464-482): sets `_running = False`, cancels every handle
in `_background_tasks` (without removing any from the set), gathers them with
`return_exceptions=True`, then awaits `server.stop()`; the surrounding
`try/except` logs and swallows any failure, so nothing propagates and
`_initialized` is never touched. -/
def stop_api (s : CogneeState) : StopResult :=
  let s1 := { s with running := false }
  { state := s1, cancelled := s1.background_tasks, serverStopCalled := true }

/-- The slice of the `get_status` dict (lines 490-502) owned by the
orchestrator itself; `health`, `performance` and `config` are collaborator
pass-throughs.  `uptime` is `time.time() - self._start_time` when the
attribute exists, else `0`. -/
structure StatusResult where
  initialized : Bool
  running : Bool
  metrics : CogneeMetrics
  uptime : Int
  deriving Repr, DecidableEq

/-- Model of `get_status` (lines 490-502) evaluated at current time `now`. -/
def get_status (now : Nat) (s : CogneeState) : StatusResult :=
  { initialized := s.initialized, running := s.running, metrics := s.metrics,
    uptime := match s.start_time with
      | some st => (now : Int) - (st : Int)
      | none => 0 }

/-! ## Knowledge query pipeline (`query_knowledge`, lines 291-334) -/

/-- A Python `Dict[str, int]` filter mapping, modelled as its sequence of
key-value pairs in insertion order (the order `str(dict)` renders). -/
abbrev Filters := List (String × Int)

/-- Python `repr` of a plain (quote-free, escape-free) string key: the form
`str(dict)` uses for the keys of a filter mapping. -/
def pyReprStr (s : String) : String := "'" ++ s ++ "'"

/-- Python `str()` of a `Dict[str, int]`: entries in insertion order,
rendered `\x7b'k': v, ...\x7d`. -/
def pyStrOfDict (d : Filters) : String :=
  "\x7b" ++ String.intercalate ", "
    (d.map fun p => pyReprStr p.1 ++ ": " ++ toString p.2) ++ "\x7d"

/-- Python `str()` of the `Optional[Dict]` filters argument: `str(None)` is
`"None"`. -/
def pyStrOfFilters : Option Filters → String
  | none => "None"
  | some d => pyStrOfDict d

/-- Rendering of the `Optional[int]` limit inside the f-string. -/
def pyStrOfLimit : Option Int → String
  | none => "None"
  | some n => toString n

/-- A concrete deterministic model of CPython's `hash` on strings (the real
one is seed-randomised per process; the cache key only depends on it through
the rendered `str(filters)` text, so any fixed function of that text is a
faithful single-process model).  Polynomial rolling hash over code points. -/
def modelStrHash (s : String) : Int :=
  s.toList.foldl (fun h c => h * 31 + Int.ofNat c.toNat) 0

/-- The cache key of `query_knowledge` (line 310):
`f"query:\x7bquery\x7d:\x7bhash(str(filters))\x7d:\x7blimit\x7d"`, with the
string-hash function a parameter. -/
def cache_key (strHash : String → Int) (query : String)
    (filters : Option Filters) (limit : Option Int) : String :=
  "query:" ++ query ++ ":" ++ toString (strHash (pyStrOfFilters filters))
    ++ ":" ++ pyStrOfLimit limit

/-- Environment of one `query_knowledge` call: the process string-hash
function, the cache contents (`cache_manager.get`; `none` = miss), the search
collaborator's behaviour. -/
structure QueryEnv where
  strHash : String → Int
  cache : String → Option (List Nat)
  searchOk : Bool
  searchResult : List Nat

/-- Truthiness test `if cached_result:` of line 313 for a given call:
true exactly when the cache maps the derived key to a *non-empty* result
list (Python's `None` and `[]` are both falsy). -/
def cacheTruthy (env : QueryEnv) (query : String) (filters : Option Filters)
    (limit : Option Int) : Bool :=
  match env.cache (cache_key env.strHash query filters limit) with
  | some v => !v.isEmpty
  | none => false

/-- Errors `query_knowledge` can propagate. -/
inductive QueryError where
  | notInitialized
  | searchError
  deriving Repr, DecidableEq

deriving instance DecidableEq for Except

/-- Observable outcome of one `query_knowledge` call: result or propagated
error, whether `search_engine.semantic_search` was invoked, the
`cache_manager.set` write issued (if any), and the post state. -/
structure QueryResult where
  result : Except QueryError (List Nat)
  searchInvoked : Bool
  cacheWrite : Option (String × List Nat)
  state : CogneeState
  deriving Repr, DecidableEq

/-- Model of `query_knowledge` (lines 291-334).  Raises when not initialized
(lines 305-306).  Builds the cache key, reads the cache; the hit test is the
Python truthiness check `if cached_result:` (line 313), so only a *non-empty*
cached list short-circuits; on that path the cached value is returned with no
search, no write and no metrics update.  Otherwise `semantic_search` runs
(propagating its exception on failure, with no write and no metrics update);
on success the result is written under the key, `search_queries` is
incremented, and the result is returned. -/
def query_knowledge (env : QueryEnv) (s : CogneeState) (query : String)
    (filters : Option Filters) (limit : Option Int) : QueryResult :=
  if !s.initialized then
    { result := Except.error QueryError.notInitialized,
      searchInvoked := false, cacheWrite := none, state := s }
  else
    let key := cache_key env.strHash query filters limit
    if cacheTruthy env query filters limit then
      { result := Except.ok ((env.cache key).getD []),
        searchInvoked := false, cacheWrite := none, state := s }
    else if env.searchOk then
      { result := Except.ok env.searchResult,
        searchInvoked := true, cacheWrite := some (key, env.searchResult),
        state := { s with metrics :=
          { s.metrics with search_queries := s.metrics.search_queries + 1 } } }
    else
      { result := Except.error QueryError.searchError,
        searchInvoked := true, cacheWrite := none, state := s }

/-! ## Background supervisor loops (lines 185-249)

The three loop coroutines share one shape:

    while self._running:
        try:
            <poll collaborators / act>
        except Exception as e:
            self.logger.error(...)
        await asyncio.sleep(<configured interval>)

A loop execution is modelled against the history `flag : Nat → Bool` of the
`_running` flag over time and the increasing list `checks` of instants at
which the coroutine evaluates the `while` condition (scheduling decides those
instants; `asyncio` guarantees nothing about where they fall relative to
`start_api`, since the tasks are created during `initialize()` while
`_running` is still false).  The body's outcome at each instant is an oracle:
`.ok` when every collaborator call of the iteration returns, `.err` when one
of them raises (the `except` arm). -/

/-- Outcome of one loop body (`try` block): all collaborator calls returned,
or one raised and was caught by the `except` arm. -/
inductive IterOutcome where
  | ok
  | err
  deriving Repr, DecidableEq

/-- Record of one completed loop iteration: the caught-or-not body outcome
and the `asyncio.sleep` duration that followed it. -/
structure LoopIter where
  outcome : IterOutcome
  slept : Nat
  deriving Repr, DecidableEq

/-- One `while self._running: try ... except ... sleep(interval)` loop, the
common shape of the three coroutines: at each check instant whose flag
observation is true it completes one iteration (body outcome recorded, then
the sleep) and continues; at the first false observation it returns.  The
function is total and returns the iteration list: a caught body error is data
in an iteration, never a propagated exception. -/
def whileRunningLoop (flag : Nat → Bool) (body : Nat → IterOutcome)
    (interval : Nat) : List Nat → List LoopIter
  | [] => []
  | t :: ts =>
    if flag t then
      { outcome := body t, slept := interval } :: whileRunningLoop flag body interval ts
    else []

/-- Model of `_collect_metrics_loop` (lines 185-219): polls the fourteen metric
sources, stores them in `_metrics`, hands the snapshot to
`metrics_collector.collect`, sleeping `config.metrics.collection_interval`. -/
def collect_metrics_loop (flag : Nat → Bool) (body : Nat → IterOutcome)
    (collection_interval : Nat) (checks : List Nat) : List LoopIter :=
  whileRunningLoop flag body collection_interval checks

/-- Model of `_health_monitoring_loop` (lines 221-234): awaits
`health_checker.check_health`, invoking `_handle_health_issue` when
unhealthy, sleeping `config.health.check_interval`. -/
def health_monitoring_loop (flag : Nat → Bool) (body : Nat → IterOutcome)
    (check_interval : Nat) (checks : List Nat) : List LoopIter :=
  whileRunningLoop flag body check_interval checks

/-- Model of `_performance_optimization_loop` (lines 236-249): awaits
`performance_optimizer.optimize`, applying the result when `optimized`,
sleeping `config.performance.optimization_interval`. -/
def performance_optimization_loop (flag : Nat → Bool) (body : Nat → IterOutcome)
    (optimization_interval : Nat) (checks : List Nat) : List LoopIter :=
  whileRunningLoop flag body optimization_interval checks

/-! ## Helper lemmas -/

theorem runInits_all_ok (ok : String → Bool) (l : List String)
    (h : ∀ m ∈ l, ok m = true) : runInits ok l = (l, true) := by
  induction l with
  | nil => rfl
  | cons n ns ih =>
    simp only [runInits, h n (List.mem_cons_self n ns), if_true,
      ih fun m hm => h m (List.mem_cons_of_mem n hm)]

theorem runInits_mem_false (ok : String → Bool) (l : List String) (n : String)
    (hn : n ∈ l) (hf : ok n = false) : (runInits ok l).2 = false := by
  induction l with
  | nil => cases hn
  | cons m ms ih =>
    by_cases hm : ok m = true
    · simp only [runInits, hm, if_true]
      rcases List.mem_cons.mp hn with h1 | h2
      · rw [h1] at hf; rw [hf] at hm; cases hm
      · exact ih h2
    · simp only [runInits, hm, if_false, Bool.not_eq_true] at *
      simp [runInits, hm]

theorem whileRunningLoop_all_true (flag : Nat → Bool) (body : Nat → IterOutcome)
    (interval : Nat) (cs : List Nat) (h : ∀ t ∈ cs, flag t = true) :
    whileRunningLoop flag body interval cs
      = cs.map fun t => { outcome := body t, slept := interval } := by
  induction cs with
  | nil => rfl
  | cons t ts ih =>
    simp only [whileRunningLoop, h t (List.mem_cons_self t ts), if_true,
      List.map_cons, ih fun u hu => h u (List.mem_cons_of_mem t hu)]

theorem whileRunningLoop_first_false (flag : Nat → Bool) (body : Nat → IterOutcome)
    (interval : Nat) (pre : List Nat) (t : Nat) (post : List Nat)
    (hpre : ∀ u ∈ pre, flag u = true) (ht : flag t = false) :
    whileRunningLoop flag body interval (pre ++ t :: post)
      = pre.map fun u => { outcome := body u, slept := interval } := by
  induction pre with
  | nil => simp [whileRunningLoop, ht]
  | cons u us ih =>
    simp only [List.cons_append, whileRunningLoop,
      hpre u (List.mem_cons_self u us), if_true, List.map_cons]
    exact congrArg _ (ih fun v hv => hpre v (List.mem_cons_of_mem u hv))

/-! ## Concrete fixtures used by witnesses and counterexamples -/

/-- Oracle under which every subsystem init succeeds. -/
def okAll : String → Bool := fun _ => true

/-- A state in which `initialize()` has succeeded (all flags as produced by a
successful first initialization). -/
def readyState : CogneeState :=
  { initialized := true, running := false, metrics := {},
    background_tasks := backgroundTaskNames, start_time := none }

/-- Key `query_knowledge("x", None, 10)` derives under the model hash. -/
def c4Key : String := cache_key modelStrHash "x" none (some 10)

/-- Environment whose cache holds the non-empty value `[7]` for `c4Key`. -/
def c4Env : QueryEnv :=
  { strHash := modelStrHash,
    cache := fun k => if k = c4Key then some [7] else none,
    searchOk := true, searchResult := [5] }

/-- Key `query_knowledge("y", \x7b\x7d, 3)` derives under the model hash. -/
def c5Key : String := cache_key modelStrHash "y" (some []) (some 3)

/-- Environment whose cache holds the *empty* value `[]` for `c5Key`. -/
def c5Env : QueryEnv :=
  { strHash := modelStrHash,
    cache := fun k => if k = c5Key then some [] else none,
    searchOk := true, searchResult := [9] }

/-- An environment with an empty cache and a working search collaborator. -/
def missEnv : QueryEnv :=
  { strHash := modelStrHash, cache := fun _ => none,
    searchOk := true, searchResult := [1, 2] }

/-- The `_running` flag history of a run in which `initialize()` succeeds
while the flag is false and `start_api` sets it true at instant 1, after
which it stays true. -/
def lateStartFlag : Nat → Bool := fun t => decide (1 ≤ t)

/-- Oracle that fails exactly the `cache_manager.initialize()` call. -/
def okFailCache : String → Bool := fun n => decide (n ≠ "cache_manager")

/-- A state in which the orchestrator is initialized and the transport is
running (as after a successful `initialize()` followed by `start_api`). -/
def runningState : CogneeState :=
  { readyState with running := true }

/-! ## Claim theorems -/

/-- C6: if `initialize()` has already returned true and no shutdown
intervened, a second `initialize()` call returns true immediately with no
side effects — no subsystem init call is issued, host optimization is not
re-applied, no background task is started, and the state is unchanged. -/
theorem C6_initCore_idempotent (ok : String → Bool) (dynamicConfig : Bool)
    (s : CogneeState) (h : s.initialized = true) :
    (initCore ok dynamicConfig s).ok = true ∧
    (initCore ok dynamicConfig s).state = s ∧
    (initCore ok dynamicConfig s).calls = [] ∧
    (initCore ok dynamicConfig s).tasksStarted = [] ∧
    (initCore ok dynamicConfig s).hostOptApplied = false := by
  simp [initCore, h]

theorem C6_witness :
    readyState.initialized = true ∧
    (initCore okAll true readyState).ok = true ∧
    (initCore okAll true readyState).state = readyState ∧
    (initCore okAll true readyState).calls = [] ∧
    (initCore okAll true readyState).tasksStarted = [] ∧
    (initCore okAll true readyState).hostOptApplied = false :=
  ⟨rfl, C6_initCore_idempotent okAll true readyState rfl⟩

/-- C7: if any subsystem collaborator raises during `initialize()`, the call
returns false with the state (in particular the `initialized` flag)
unchanged and no background task started, and a subsequent `initialize()`
call re-attempts the entire subsystem sequence from the start (here: a retry
whose collaborators all succeed issues every init call of `initOrder` and
returns true). -/
theorem C7_init_failure_aborts (ok ok2 : String → Bool) (d d2 : Bool)
    (s : CogneeState) (n : String)
    (hs : s.initialized = false) (hn : n ∈ initOrder) (hf : ok n = false)
    (hok2 : ∀ m, ok2 m = true) :
    (initCore ok d s).ok = false ∧
    (initCore ok d s).state = s ∧
    (initCore ok d s).tasksStarted = [] ∧
    (initCore ok2 d2 (initCore ok d s).state).ok = true ∧
    (initCore ok2 d2 (initCore ok d s).state).calls = initOrder := by
  have hfail := runInits_mem_false ok initOrder n hn hf
  have hretry := runInits_all_ok ok2 initOrder fun m _ => hok2 m
  refine ⟨?_, ?_, ?_, ?_, ?_⟩ <;>
    simp [initCore, hs, hfail, hretry]

theorem C7_witness :
    initialState.initialized = false ∧
    "cache_manager" ∈ initOrder ∧
    okFailCache "cache_manager" = false ∧
    (initCore okFailCache true initialState).ok = false ∧
    (initCore okFailCache true initialState).state = initialState ∧
    (initCore okFailCache true initialState).tasksStarted = [] ∧
    (initCore okAll false (initCore okFailCache true initialState).state).ok = true ∧
    (initCore okAll false (initCore okFailCache true initialState).state).calls = initOrder := by
  refine ⟨rfl, by decide, by decide, ?_⟩
  have h := C7_init_failure_aborts okFailCache okAll true false initialState
    "cache_manager" rfl (by decide) (by decide) (fun m => rfl)
  exact ⟨h.1, h.2.1, h.2.2.1, h.2.2.2.1, h.2.2.2.2⟩

/-- C8: `start_api` fails with the precondition error (state untouched) when
called before `initialize()` succeeded; otherwise it sets `running := true`
and delegates to `server.start`; if that delegate call raises, `running` is
reset to false (all other state fields untouched) and the error propagates
to the caller. -/
theorem C8_start_api_contract (serverStartOk : Bool) (s : CogneeState) :
    (s.initialized = false →
      start_api serverStartOk s = (Except.error ApiError.notInitialized, s)) ∧
    (s.initialized = true → serverStartOk = true →
      (start_api serverStartOk s).1 = Except.ok () ∧
      (start_api serverStartOk s).2 = { s with running := true }) ∧
    (s.initialized = true → serverStartOk = false →
      (start_api serverStartOk s).1 = Except.error ApiError.serverError ∧
      (start_api serverStartOk s).2.running = false ∧
      (start_api serverStartOk s).2.initialized = s.initialized ∧
      (start_api serverStartOk s).2.background_tasks = s.background_tasks ∧
      (start_api serverStartOk s).2.metrics = s.metrics) := by
  refine ⟨fun h => ?_, fun h1 h2 => ?_, fun h1 h2 => ?_⟩ <;>
    simp [start_api, *]

theorem C8_witness :
    readyState.initialized = true ∧
    (start_api false readyState).1 = Except.error ApiError.serverError ∧
    (start_api false readyState).2.running = false ∧
    (start_api false readyState).2.initialized = readyState.initialized ∧
    (start_api true readyState).1 = Except.ok () ∧
    (start_api true readyState).2 = { readyState with running := true } := by
  have hfail := (C8_start_api_contract false readyState).2.2 rfl rfl
  have hok := (C8_start_api_contract true readyState).2.1 rfl rfl
  exact ⟨rfl, hfail.1, hfail.2.1, hfail.2.2.1, hok.1, hok.2⟩

/-- C10: `stop_api` sets `running := false`, cancels and joins exactly the
handles of the background task set without removing any of them, calls
`server.stop`, and leaves `initialized` (and the metrics) unchanged; hence a
subsequent `initialize()` call on the stopped orchestrator returns true
immediately, issuing no subsystem init call and starting no loop. -/
theorem C10_stop_api_frame (ok2 : String → Bool) (d2 : Bool) (s : CogneeState)
    (hs : s.initialized = true) :
    (stop_api s).state.initialized = s.initialized ∧
    (stop_api s).state.running = false ∧
    (stop_api s).state.background_tasks = s.background_tasks ∧
    (stop_api s).state.metrics = s.metrics ∧
    (stop_api s).cancelled = s.background_tasks ∧
    (stop_api s).serverStopCalled = true ∧
    (initCore ok2 d2 (stop_api s).state).ok = true ∧
    (initCore ok2 d2 (stop_api s).state).state = (stop_api s).state ∧
    (initCore ok2 d2 (stop_api s).state).calls = [] ∧
    (initCore ok2 d2 (stop_api s).state).tasksStarted = [] := by
  refine ⟨rfl, rfl, rfl, rfl, rfl, rfl, ?_, ?_, ?_, ?_⟩ <;>
    simp [initCore, stop_api, hs]

theorem C10_witness :
    runningState.initialized = true ∧
    (stop_api runningState).state.initialized = runningState.initialized ∧
    (stop_api runningState).state.running = false ∧
    (stop_api runningState).state.background_tasks = runningState.background_tasks ∧
    (stop_api runningState).state.metrics = runningState.metrics ∧
    (stop_api runningState).cancelled = runningState.background_tasks ∧
    (stop_api runningState).serverStopCalled = true ∧
    (initCore okAll true (stop_api runningState).state).ok = true ∧
    (initCore okAll true (stop_api runningState).state).state = (stop_api runningState).state ∧
    (initCore okAll true (stop_api runningState).state).calls = [] ∧
    (initCore okAll true (stop_api runningState).state).tasksStarted = [] :=
  ⟨rfl, C10_stop_api_frame okAll true runningState rfl⟩

/-- Environment whose cache holds a value only under the key derived from
the filter mapping in insertion order a-then-b. -/
def c2Env : QueryEnv :=
  { strHash := modelStrHash,
    cache := fun k =>
      if k = cache_key modelStrHash "x" (some [("a", 1), ("b", 2)]) (some 10)
      then some [7] else none,
    searchOk := true, searchResult := [5] }

/-- C2: the claim requires two filter mappings with the same key-value pairs
in different insertion order to yield the same cache key.  In the code the
key embeds `hash(str(filters))` and `str` of a Python dict renders entries in
insertion order, so the two renderings — hence the keys, under the process
hash (modelled by `modelStrHash`) — differ, and a result cached under one
ordering is a miss (search re-invoked) under the other. -/
theorem C2_filter_order_changes_cache_key :
    ([(("a" : String), (1 : Int)), ("b", 2)]).Perm [("b", 2), ("a", 1)] ∧
    pyStrOfFilters (some [("a", 1), ("b", 2)])
      ≠ pyStrOfFilters (some [("b", 2), ("a", 1)]) ∧
    cache_key modelStrHash "x" (some [("a", 1), ("b", 2)]) (some 10)
      ≠ cache_key modelStrHash "x" (some [("b", 2), ("a", 1)]) (some 10) ∧
    (query_knowledge c2Env readyState "x" (some [("a", 1), ("b", 2)]) (some 10)).searchInvoked
      = false ∧
    (query_knowledge c2Env readyState "x" (some [("b", 2), ("a", 1)]) (some 10)).searchInvoked
      = true := by
  exact ⟨List.Perm.swap ("b", 2) ("a", 1) [], by decide, by decide, by decide, by decide⟩

/-- C3: the claim says a successful first `initialize()` records the start
time and every later `get_status()` reports the elapsed time since it.  The
code stores `time.time()` only in a local variable of `initialize` and never
assigns `self._start_time`, so the `hasattr` guard in `get_status`
(line 499) always takes its `else 0` arm: after a successful initialization
at instant 0, a status query 100 seconds later still reports uptime 0. -/
theorem C3_uptime_stays_zero :
    (initCore okAll true initialState).ok = true ∧
    (initCore okAll true initialState).state.initialized = true ∧
    (initCore okAll true initialState).state.start_time = none ∧
    (get_status 100 (initCore okAll true initialState).state).uptime = 0 ∧
    (get_status 100 (initCore okAll true initialState).state).uptime ≠ 100 := by
  decide

/-- C4: the `search_queries` counter is incremented only on the path that
actually performs a search: a truthy cache hit returns before the increment
(line 315 precedes line 328), a successful miss increments by exactly one,
and a failing search propagates without incrementing. -/
theorem C4_counter_increment_only_on_miss (env : QueryEnv) (s : CogneeState)
    (query : String) (filters : Option Filters) (limit : Option Int)
    (hs : s.initialized = true) :
    (cacheTruthy env query filters limit = true →
      (query_knowledge env s query filters limit).state.metrics.search_queries
        = s.metrics.search_queries ∧
      (query_knowledge env s query filters limit).searchInvoked = false) ∧
    (cacheTruthy env query filters limit = false → env.searchOk = true →
      (query_knowledge env s query filters limit).state.metrics.search_queries
        = s.metrics.search_queries + 1 ∧
      (query_knowledge env s query filters limit).searchInvoked = true) ∧
    (cacheTruthy env query filters limit = false → env.searchOk = false →
      (query_knowledge env s query filters limit).state.metrics.search_queries
        = s.metrics.search_queries) := by
  refine ⟨fun h1 => ?_, fun h1 h2 => ?_, fun h1 h2 => ?_⟩ <;>
    simp [query_knowledge, hs, *]

/-- C4 counterexample: a call that returns normally from the cache-hit path
(`[7]` is cached under the derived key) leaves the counter unchanged at 0 —
the claimed unconditional increment does not happen. -/
theorem C4_counterexample :
    (query_knowledge c4Env readyState "x" none (some 10)).result = Except.ok [7] ∧
    readyState.metrics.search_queries = 0 ∧
    (query_knowledge c4Env readyState "x" none (some 10)).state.metrics.search_queries
      = 0 := by
  decide

theorem C4_witness :
    readyState.initialized = true ∧
    cacheTruthy missEnv "x" none (some 10) = false ∧
    missEnv.searchOk = true ∧
    (query_knowledge missEnv readyState "x" none (some 10)).state.metrics.search_queries
      = readyState.metrics.search_queries + 1 ∧
    (query_knowledge missEnv readyState "x" none (some 10)).searchInvoked = true := by
  refine ⟨rfl, by decide, rfl, ?_, ?_⟩
  · exact ((C4_counter_increment_only_on_miss missEnv readyState "x" none
      (some 10) rfl).2.1 (by decide) rfl).1
  · exact ((C4_counter_increment_only_on_miss missEnv readyState "x" none
      (some 10) rfl).2.1 (by decide) rfl).2

/-- C5: the cache-aside behaviour as implemented: a *non-empty* cached value
under the derived key is returned directly with no search and no write and
the state unchanged; when the cache misses — or holds an empty (falsy)
value — `semantic_search` runs, its result is written under the key and
returned. -/
theorem C5_cache_aside_truthy (env : QueryEnv) (s : CogneeState)
    (query : String) (filters : Option Filters) (limit : Option Int)
    (v : List Nat) (hs : s.initialized = true) :
    (env.cache (cache_key env.strHash query filters limit) = some v → v ≠ [] →
      (query_knowledge env s query filters limit).result = Except.ok v ∧
      (query_knowledge env s query filters limit).searchInvoked = false ∧
      (query_knowledge env s query filters limit).cacheWrite = none ∧
      (query_knowledge env s query filters limit).state = s) ∧
    (cacheTruthy env query filters limit = false → env.searchOk = true →
      (query_knowledge env s query filters limit).result = Except.ok env.searchResult ∧
      (query_knowledge env s query filters limit).searchInvoked = true ∧
      (query_knowledge env s query filters limit).cacheWrite
        = some (cache_key env.strHash query filters limit, env.searchResult)) := by
  constructor
  · intro hv hne
    have ht : cacheTruthy env query filters limit = true := by
      simp [cacheTruthy, hv, List.isEmpty_iff, hne]
    refine ⟨?_, ?_, ?_, ?_⟩ <;> simp [query_knowledge, hs, ht, hv]
  · intro h1 h2
    refine ⟨?_, ?_, ?_⟩ <;> simp [query_knowledge, hs, h1, h2]

/-- C5 counterexample: the cache holds the value `[]` for the derived key,
yet — because line 313 tests Python truthiness, not presence — the call
invokes the search collaborator, writes its result `[9]` back under the key,
and returns `[9]` rather than the held cached value. -/
theorem C5_counterexample :
    c5Env.cache c5Key = some [] ∧
    (query_knowledge c5Env readyState "y" (some []) (some 3)).searchInvoked = true ∧
    (query_knowledge c5Env readyState "y" (some []) (some 3)).cacheWrite
      = some (c5Key, [9]) ∧
    (query_knowledge c5Env readyState "y" (some []) (some 3)).result
      = Except.ok [9] := by
  decide

theorem C5_witness :
    readyState.initialized = true ∧
    c4Env.cache (cache_key c4Env.strHash "x" none (some 10)) = some [7] ∧
    (query_knowledge c4Env readyState "x" none (some 10)).result = Except.ok [7] ∧
    (query_knowledge c4Env readyState "x" none (some 10)).searchInvoked = false ∧
    (query_knowledge c4Env readyState "x" none (some 10)).cacheWrite = none ∧
    (query_knowledge c4Env readyState "x" none (some 10)).state = readyState := by
  refine ⟨rfl, by decide, ?_⟩
  exact (C5_cache_aside_truthy c4Env readyState "x" none (some 10) [7] rfl).1
    (by decide) (by decide)

/-- Flag history that is true at instants 0 and 1 and false from 2 on. -/
def earlyStopFlag : Nat → Bool := fun t => decide (t ≤ 1)

/-- Flag history that is constantly true. -/
def alwaysTrueFlag : Nat → Bool := fun _ => true

/-- Body oracle under which every iteration raises (and is caught). -/
def errBody : Nat → IterOutcome := fun _ => IterOutcome.err

/-- C1 counterexample: the claim quantifies over every run in which
`initialize()` and then `start_api` succeed, i.e. the `_running` flag becomes
true at some instant `T` and stays true; it asserts each loop then repeatedly
executes iterations.  But the three tasks are created during `initialize()`
while `_running` is still false, and nothing re-checks after `start_api`: in
a run whose only loop-condition check happens before `T` (flag history
`lateStartFlag`, check schedule `[0]`, `T = 1`), the metrics loop observes
false and returns with zero iterations, although the flag is true forever
afterwards.  The universally quantified reading of the claim is therefore
false. -/
theorem C1_counterexample :
    ¬ (∀ (flag : Nat → Bool) (body : Nat → IterOutcome) (interval : Nat)
         (checks : List Nat) (T : Nat),
        (∀ t, T ≤ t → flag t = true) → checks ≠ [] →
        1 ≤ (collect_metrics_loop flag body interval checks).length) := by
  intro h
  have h0 := h lateStartFlag (fun _ => IterOutcome.ok) 60 [0] 1
    (fun t ht => by simpa [lateStartFlag] using ht) (by simp)
  exact absurd h0 (by decide)

/-- C1 amended: over the instants at which a loop actually evaluates its
`while self._running` condition, each of the three loops executes exactly one
iteration — ending in a sleep of its own configured interval — per check
that observes true, and returns at the first check that observes false
(discarding the rest of its schedule); in particular on a schedule all of
whose checks observe true, each loop performs one iteration per check. -/
theorem C1_loops_iterate_per_true_check (flag : Nat → Bool)
    (bM bH bP : Nat → IterOutcome) (iM iH iP : Nat)
    (pre : List Nat) (t : Nat) (post : List Nat)
    (hpre : ∀ u ∈ pre, flag u = true) (ht : flag t = false) :
    (collect_metrics_loop flag bM iM (pre ++ t :: post)).length = pre.length ∧
    (∀ it ∈ collect_metrics_loop flag bM iM (pre ++ t :: post), it.slept = iM) ∧
    (health_monitoring_loop flag bH iH (pre ++ t :: post)).length = pre.length ∧
    (∀ it ∈ health_monitoring_loop flag bH iH (pre ++ t :: post), it.slept = iH) ∧
    (performance_optimization_loop flag bP iP (pre ++ t :: post)).length = pre.length ∧
    (∀ it ∈ performance_optimization_loop flag bP iP (pre ++ t :: post),
      it.slept = iP) ∧
    (∀ cs : List Nat, (∀ u ∈ cs, flag u = true) →
      (collect_metrics_loop flag bM iM cs).length = cs.length ∧
      (health_monitoring_loop flag bH iH cs).length = cs.length ∧
      (performance_optimization_loop flag bP iP cs).length = cs.length) := by
  have hM := whileRunningLoop_first_false flag bM iM pre t post hpre ht
  have hH := whileRunningLoop_first_false flag bH iH pre t post hpre ht
  have hP := whileRunningLoop_first_false flag bP iP pre t post hpre ht
  refine ⟨?_, ?_, ?_, ?_, ?_, ?_, ?_⟩
  · simp [collect_metrics_loop, hM]
  · intro it hit
    simp only [collect_metrics_loop, hM, List.mem_map] at hit
    obtain ⟨u, _, rfl⟩ := hit
    rfl
  · simp [health_monitoring_loop, hH]
  · intro it hit
    simp only [health_monitoring_loop, hH, List.mem_map] at hit
    obtain ⟨u, _, rfl⟩ := hit
    rfl
  · simp [performance_optimization_loop, hP]
  · intro it hit
    simp only [performance_optimization_loop, hP, List.mem_map] at hit
    obtain ⟨u, _, rfl⟩ := hit
    rfl
  · intro cs hcs
    refine ⟨?_, ?_, ?_⟩ <;>
      simp [collect_metrics_loop, health_monitoring_loop,
        performance_optimization_loop, whileRunningLoop_all_true _ _ _ cs hcs]

theorem C1_witness :
    earlyStopFlag 0 = true ∧ earlyStopFlag 1 = true ∧ earlyStopFlag 2 = false ∧
    (collect_metrics_loop earlyStopFlag (fun _ => IterOutcome.ok) 60
      ([0, 1] ++ 2 :: [5])).length = 2 ∧
    (health_monitoring_loop earlyStopFlag (fun _ => IterOutcome.ok) 30
      ([0, 1] ++ 2 :: [5])).length = 2 ∧
    (performance_optimization_loop earlyStopFlag (fun _ => IterOutcome.ok) 300
      ([0, 1] ++ 2 :: [5])).length = 2 := by
  have h := C1_loops_iterate_per_true_check earlyStopFlag
    (fun _ => IterOutcome.ok) (fun _ => IterOutcome.ok) (fun _ => IterOutcome.ok)
    60 30 300 [0, 1] 2 [5] (by decide) (by decide)
  exact ⟨rfl, rfl, rfl, h.1, h.2.2.1, h.2.2.2.2.1⟩

/-- C9: an exception raised inside one iteration of any of the three loops is
caught by the per-iteration `except` arm: the loop records the failed
iteration, still sleeps its configured interval, and then continues on the
rest of its schedule exactly as before — the erroring iteration is followed
by the same loop on the remaining checks, so a single failure never
terminates the loop; the loop functions are total (they return iteration
lists, never a propagated exception), so nothing reaches the callers of
`initialize` or `stop_api`. -/
theorem C9_loop_error_isolated (flag : Nat → Bool)
    (bM bH bP : Nat → IterOutcome) (iM iH iP : Nat) (t : Nat) (ts : List Nat)
    (hflag : flag t = true) (hM : bM t = IterOutcome.err)
    (hH : bH t = IterOutcome.err) (hP : bP t = IterOutcome.err) :
    collect_metrics_loop flag bM iM (t :: ts)
      = { outcome := IterOutcome.err, slept := iM }
          :: collect_metrics_loop flag bM iM ts ∧
    health_monitoring_loop flag bH iH (t :: ts)
      = { outcome := IterOutcome.err, slept := iH }
          :: health_monitoring_loop flag bH iH ts ∧
    performance_optimization_loop flag bP iP (t :: ts)
      = { outcome := IterOutcome.err, slept := iP }
          :: performance_optimization_loop flag bP iP ts := by
  refine ⟨?_, ?_, ?_⟩ <;>
    simp [collect_metrics_loop, health_monitoring_loop,
      performance_optimization_loop, whileRunningLoop, hflag, hM, hH, hP]

theorem C9_witness :
    alwaysTrueFlag 0 = true ∧ errBody 0 = IterOutcome.err ∧
    collect_metrics_loop alwaysTrueFlag errBody 60 [0, 1]
      = [{ outcome := IterOutcome.err, slept := 60 },
         { outcome := IterOutcome.err, slept := 60 }] ∧
    health_monitoring_loop alwaysTrueFlag errBody 30 [0, 1]
      = [{ outcome := IterOutcome.err, slept := 30 },
         { outcome := IterOutcome.err, slept := 30 }] := by
  have h := C9_loop_error_isolated alwaysTrueFlag errBody errBody errBody
    60 30 300 0 [1] rfl rfl rfl rfl
  refine ⟨rfl, rfl, ?_, ?_⟩
  · rw [h.1]; decide
  · rw [h.2.1]; decide

end Cognee
